import Mathlib

/-!
Shallow embedding of the secretGPT Attestation Hub
(src/services/attestation_hub) and proofs about its specification.

Python strings are modelled as `List Char`, `datetime.utcnow()` as an
explicit `now : Nat` (seconds), Python `dict` / `OrderedDict` as
association lists in insertion order (head = oldest entry), and raised
exceptions as `Except HubError`.  Network interaction (quote fetching and
the REST attestation server) is modelled by explicit environments.
-/

set_option maxRecDepth 100000

namespace SecretGPT

/-! ## Error taxonomy (hub/models.py)

`ParsingError` and `VMConnectionError` subclass `AttestationError` in the
source; here they are constructors of one inductive, and `HubError.msg`
models Python `str(e)`. -/

inductive HubError where
  | attestationError (msg : List Char)
  | parsingError (msg : List Char)
  | vmConnectionError (msg : List Char)
deriving DecidableEq

def HubError.msg : HubError → List Char
  | .attestationError m => m
  | .parsingError m => m
  | .vmConnectionError m => m

/-! ## Data model (hub/models.py, config/settings.py) -/

structure AttestationData where
  vm_name : List Char
  vm_type : List Char
  mrtd : List Char
  rtmr0 : List Char
  rtmr1 : List Char
  rtmr2 : List Char
  rtmr3 : List Char
  report_data : List Char
  certificate_fingerprint : List Char
  timestamp : Nat
  raw_quote : List Char
  parsing_method : List Char
deriving DecidableEq

structure DualAttestationData where
  secretai : AttestationData
  secretgpt : AttestationData
  timestamp : Nat
  correlation_id : List Char
deriving DecidableEq

structure VMStatus where
  vm_name : List Char
  endpoint : List Char
  status : List Char
  last_successful_attestation : Option Nat := none
  error_count : Nat := 0
  last_error : Option (List Char) := none
deriving DecidableEq

structure VMConfig where
  endpoint : List Char
  type : List Char
  parsing_strategy : List Char
  timeout : Nat := 30
  retry_attempts : Nat := 3
  fallback_strategy : Option (List Char) := none
  health_check_path : List Char := "/status".toList
  tls_verify : Bool := false
deriving DecidableEq

structure CacheEntry where
  data : AttestationData
  created_at : Nat
deriving DecidableEq

/-- CacheEntry.is_expired: `age = (utcnow - created_at).total_seconds(); age > ttl`. -/
def CacheEntry.is_expired (e : CacheEntry) (now : Nat) (ttl_seconds : Nat) : Bool :=
  now - e.created_at > ttl_seconds

inductive ServiceStatus where
  | healthy
  | degraded
  | unhealthy
deriving DecidableEq

structure ServiceHealth where
  status : ServiceStatus
  vms_online : Nat
  vms_total : Nat
  cache_hit_rate : ℚ
  uptime_seconds : Nat
  version : List Char
  vm_statuses : List (List Char × VMStatus)

structure CacheConfig where
  ttl : Nat := 300
  max_size : Nat := 1000
deriving DecidableEq

/-! ## Python dict operations on association lists

A Python `dict` keeps keys in first-insertion order; overwriting an
existing key keeps its position.  `OrderedDict.move_to_end` moves a key
to the most-recently-used (last) position, `popitem(last=False)` removes
the head. -/

def alookup {β : Type} (k : List Char) : List (List Char × β) → Option β
  | [] => none
  | (k1, v) :: rest => if k = k1 then some v else alookup k rest

/-- Removal of a key (`del d[k]`). -/
def adel {β : Type} (k : List Char) : List (List Char × β) → List (List Char × β)
  | [] => []
  | (k1, v) :: rest => if k = k1 then adel k rest else (k1, v) :: adel k rest

/-- Overwrite the value at an existing key, keeping its position. -/
def aset {β : Type} (k : List Char) (v : β) : List (List Char × β) → List (List Char × β)
  | [] => []
  | (k1, v1) :: rest => if k = k1 then (k1, v) :: rest else (k1, v1) :: aset k v rest

/-- `d[k] = v` on an (ordered) dict: overwrite in place if present, else append. -/
def odset {β : Type} (k : List Char) (v : β) (l : List (List Char × β)) :
    List (List Char × β) :=
  if (alookup k l).isSome then aset k v l else l ++ [(k, v)]

/-- `OrderedDict.move_to_end(k)` (only called on present keys). -/
def move_to_end {β : Type} (k : List Char) (l : List (List Char × β)) :
    List (List Char × β) :=
  match alookup k l with
  | none => l
  | some v => adel k l ++ [(k, v)]

/-- Python dict-comprehension key set: first occurrences, in order
(`{n: f(n) for n in names}` keeps one entry per distinct name). -/
def pyDedup : List (List Char) → List (List Char)
  | [] => []
  | n :: rest => n :: (pyDedup rest).filter (fun m => m ≠ n)

/-! ## ConfigManager (config/settings.py) -/

structure ConfigManager where
  vm_configs : List (List Char × VMConfig)
  cache_config : CacheConfig
deriving DecidableEq

def ConfigManager.get_vm_config (cm : ConfigManager) (vm_name : List Char) :
    Option VMConfig :=
  alookup vm_name cm.vm_configs

/-- The persisted `{vms: {...}}` YAML document. -/
structure SavedDoc where
  vms : List (List Char × VMConfig)
deriving DecidableEq

/-- ConfigManager._create_default_config: the synthesized two-VM default. -/
def defaultVMConfigs : List (List Char × VMConfig) :=
  [("secretai".toList,
    { endpoint := "https://secretai.scrtlabs.com:29343".toList
      type := "secret-ai".toList
      parsing_strategy := "rest_server".toList
      timeout := 30
      retry_attempts := 3
      fallback_strategy := none
      tls_verify := false }),
   ("secretgpt".toList,
    { endpoint := "https://localhost:29343".toList
      type := "secret-gpt".toList
      parsing_strategy := "rest_server".toList
      timeout := 30
      retry_attempts := 3
      fallback_strategy := some "hardcoded".toList
      tls_verify := false })]

/-- ConfigManager._load_vm_configs: read the persisted document if present;
on `FileNotFoundError` synthesize the default configuration and write it
back (`save_vm_configs`).  Returns the loaded configs and the document
written back (if any). -/
def load_vm_configs (persisted : Option SavedDoc) :
    List (List Char × VMConfig) × Option SavedDoc :=
  match persisted with
  | some doc => (doc.vms, none)
  | none => (defaultVMConfigs, some { vms := defaultVMConfigs })

/-! ## Quote validation (parsers/base.py)

`BaseParser.validate_quote` checks, in order: the quote is non-empty,
`int(quote, 16)` succeeds, and the length is at least 2000.
`pyIntHexOk` models CPython's acceptance language for `int(s, 16)` over
ASCII strings: optional surrounding whitespace, an optional sign, an
optional `0x`/`0X` base marker, then hexadecimal digits with single
underscores allowed between digits (and directly after the marker). -/

def isPySpace (c : Char) : Bool :=
  c = ' ' || c = '\t' || c = '\n' || c = '\x0d' || c = '\x0b' || c = '\x0c'

def isHexDigitChar (c : Char) : Bool :=
  ('0' ≤ c && c ≤ '9') || ('a' ≤ c && c ≤ 'f') || ('A' ≤ c && c ≤ 'F')

/-- Digits after the first one: single underscores allowed between digits. -/
def hexTail : List Char → Bool
  | [] => true
  | '_' :: c :: rest => isHexDigitChar c && hexTail rest
  | '_' :: [] => false
  | c :: rest => isHexDigitChar c && hexTail rest

/-- Nonempty digit sequence, no leading or trailing underscore. -/
def hexBody : List Char → Bool
  | [] => false
  | c :: rest => isHexDigitChar c && hexTail rest

/-- After a `0x`/`0X` marker one leading underscore is allowed. -/
def hexAfter0x : List Char → Bool
  | '_' :: rest => hexBody rest
  | rest => hexBody rest

def hexCore : List Char → Bool
  | '0' :: 'x' :: rest => hexAfter0x rest
  | '0' :: 'X' :: rest => hexAfter0x rest
  | l => hexBody l

def hexSigned : List Char → Bool
  | '+' :: rest => hexCore rest
  | '-' :: rest => hexCore rest
  | l => hexCore l

/-- Whether CPython `int(s, 16)` accepts the (ASCII) string. -/
def pyIntHexOk (s : List Char) : Bool :=
  hexSigned (((s.dropWhile isPySpace).reverse.dropWhile isPySpace).reverse)

/-- BaseParser.validate_quote. -/
def validate_quote (quote : List Char) : Bool :=
  if quote = [] then false
  else if pyIntHexOk quote = false then false
  else if quote.length < 2000 then false
  else true

/-! ## HardcodedParser (parsers/hardcoded.py) -/

namespace HardcodedParser

/-- The OFFSETS dict of hex-offset ranges for TDX quote fields. -/
def OFFSETS (field_name : String) : Option (Nat × Nat) :=
  if field_name = "report_data" then some (128, 192)
  else if field_name = "mrtd" then some (368, 464)
  else if field_name = "rtmr0" then some (752, 848)
  else if field_name = "rtmr1" then some (848, 944)
  else if field_name = "rtmr2" then some (944, 1040)
  else if field_name = "rtmr3" then some (1040, 1136)
  else none

/-- HardcodedParser._extract_field: returns `""` when the quote is shorter
than the end offset, else the slice `quote[start:end]`.  (The `none`
branch is unreachable: all call sites pass one of the six field names.) -/
def extract_field (quote : List Char) (field_name : String) : List Char :=
  match OFFSETS field_name with
  | none => []
  | some (start, stop) =>
    if quote.length < stop then [] else (quote.drop start).take (stop - start)

/-- Host part of the endpoint: `endpoint.split('//')[1].split(':')[0]`;
`none` models the `IndexError` when the endpoint contains no `//`. -/
def splitDSlash : List Char → List (List Char)
  | [] => [[]]
  | '/' :: '/' :: rest => [] :: splitDSlash rest
  | c :: rest =>
    match splitDSlash rest with
    | [] => [[c]]
    | h :: t => (c :: h) :: t

def hostFromEndpoint (endpoint : List Char) : Option (List Char) :=
  match splitDSlash endpoint with
  | _ :: second :: _ => some (second.takeWhile (fun c => c ≠ ':'))
  | _ => none

/-- Python's `sub in s` substring test. -/
def startsWithSub : List Char → List Char → Bool
  | [], _ => true
  | _ :: _, [] => false
  | a :: as, b :: bs => if a = b then startsWithSub as bs else false

def containsSub (needle : List Char) : List Char → Bool
  | [] => needle.isEmpty
  | c :: rest => startsWithSub needle (c :: rest) || containsSub needle rest

/-- The vm_name rewriting in HardcodedParser.parse_attestation:
`localhost` becomes `secretgpt`, hosts containing `secretai` become
`secretai`. -/
def vm_name_from_endpoint (endpoint : List Char) : Option (List Char) :=
  match hostFromEndpoint endpoint with
  | none => none
  | some host =>
    some (if host = "localhost".toList then "secretgpt".toList
          else if containsSub "secretai".toList host then "secretai".toList
          else host)

/-- HardcodedParser.parse_attestation.  Any exception inside the `try`
block (the all-fields check, or the `IndexError` from an endpoint without
`//`) is re-raised as `ParsingError("Hardcoded parsing failed: ...")`.
Note the `all([...])` check covers mrtd and the four rtmrs but not
report_data. -/
def parse_attestation (quote : List Char) (vm_config : VMConfig)
    (certificate_fingerprint : List Char) (now : Nat) :
    Except HubError AttestationData :=
  if ¬ validate_quote quote then
    .error (.parsingError "Invalid quote format".toList)
  else
    let report_data := extract_field quote "report_data"
    let mrtd := extract_field quote "mrtd"
    let rtmr0 := extract_field quote "rtmr0"
    let rtmr1 := extract_field quote "rtmr1"
    let rtmr2 := extract_field quote "rtmr2"
    let rtmr3 := extract_field quote "rtmr3"
    if mrtd = [] ∨ rtmr0 = [] ∨ rtmr1 = [] ∨ rtmr2 = [] ∨ rtmr3 = [] then
      .error (.parsingError
        "Hardcoded parsing failed: Failed to extract all required fields".toList)
    else
      match vm_name_from_endpoint vm_config.endpoint with
      | none =>
        .error (.parsingError
          "Hardcoded parsing failed: list index out of range".toList)
      | some vm_name =>
        .ok { vm_name := vm_name
              vm_type := vm_config.type
              mrtd := mrtd
              rtmr0 := rtmr0
              rtmr1 := rtmr1
              rtmr2 := rtmr2
              rtmr3 := rtmr3
              report_data := report_data
              certificate_fingerprint := certificate_fingerprint
              timestamp := now
              raw_quote := quote
              parsing_method := "hardcoded".toList }

end HardcodedParser

/-! ## RestServerParser (parsers/rest_server.py)

The network is modelled by a `RestEnv` giving, per endpoint, either
`none` (the HTTP request raised) or the response.  A JSON body is
modelled as a record of the optional fields `_parse_json_response`
reads with `data.get(...)`; `json = none` means `response.json()`
raised.  The three endpoint methods are evaluated in order and the
first success is returned, exactly as the `for method in methods`
loop does (the methods are pure here, so eager evaluation of the
later ones does not change the result). -/

structure JsonDict where
  vm_name : Option (List Char) := none
  mrtd : Option (List Char) := none
  rtmr0 : Option (List Char) := none
  rtmr1 : Option (List Char) := none
  rtmr2 : Option (List Char) := none
  rtmr3 : Option (List Char) := none
  report_data : Option (List Char) := none
  certificate_fingerprint : Option (List Char) := none
deriving DecidableEq

structure HttpResponse where
  status_code : Nat
  content_type_json : Bool
  json : Option JsonDict
  text : List Char
deriving DecidableEq

structure RestEnv where
  cpu_response : Option HttpResponse
  attestation_response : Option HttpResponse
  self_response : Option HttpResponse

namespace RestServerParser

/-- RestServerParser._parse_json_response.  The `data.get('vm_name', ...)`
default argument is evaluated eagerly in Python, so an endpoint without
`//` raises `IndexError` out of this function even when the key is
present; `cert_fingerprint or data.get(...)` treats the empty string as
falsy. -/
def parse_json_response (data : JsonDict) (vm_config : VMConfig)
    (quote : List Char) (cert_fingerprint : List Char) (now : Nat) :
    Except HubError AttestationData :=
  match HardcodedParser.hostFromEndpoint vm_config.endpoint with
  | none => .error (.attestationError "list index out of range".toList)
  | some defaultName =>
    .ok { vm_name := data.vm_name.getD defaultName
          vm_type := vm_config.type
          mrtd := data.mrtd.getD []
          rtmr0 := data.rtmr0.getD []
          rtmr1 := data.rtmr1.getD []
          rtmr2 := data.rtmr2.getD []
          rtmr3 := data.rtmr3.getD []
          report_data := data.report_data.getD []
          certificate_fingerprint :=
            if cert_fingerprint ≠ [] then cert_fingerprint
            else data.certificate_fingerprint.getD []
          timestamp := now
          raw_quote := quote
          parsing_method := "rest_server".toList }

/-- Maximal runs of consecutive hex digits in a text. -/
def hexRuns : List Char → List (List Char)
  | [] => []
  | c :: rest =>
    if isHexDigitChar c then
      match hexRuns rest with
      | [] => [[c]]
      | r :: rs =>
        match rest with
        | d :: _ => if isHexDigitChar d then (c :: r) :: rs else [c] :: r :: rs
        | [] => [[c]]
    else [] :: hexRuns rest

/-- `re.findall(r'([0-9a-fA-F]{2000,})', text)` first match: the first
maximal hex-digit run of length at least 2000. -/
def firstLongHexRun (text : List Char) : Option (List Char) :=
  (hexRuns text).find? (fun r => r.length ≥ 2000)

/-- RestServerParser._try_cpu_endpoint: GET `/cpu`; non-200 yields no
result; a JSON-content-type body is parsed with `_parse_json_response`
(exceptions swallowed by `except: pass`); otherwise the first ≥2000-char
hex run in the body is handed to `HardcodedParser`. -/
def try_cpu_endpoint (resp : Option HttpResponse) (vm_config : VMConfig)
    (quote : List Char) (cert_fingerprint : List Char) (now : Nat) :
    Except HubError (Option AttestationData) :=
  match resp with
  | none => .error (.vmConnectionError "request failed".toList)
  | some r =>
    if r.status_code ≠ 200 then .ok none
    else
      let jsonBranch : Option AttestationData :=
        if r.content_type_json then
          match r.json with
          | some d =>
            match parse_json_response d vm_config quote cert_fingerprint now with
            | .ok a => some a
            | .error _ => none
          | none => none
        else none
      match jsonBranch with
      | some a => .ok (some a)
      | none =>
        match firstLongHexRun r.text with
        | some extracted =>
          (HardcodedParser.parse_attestation extracted vm_config
            cert_fingerprint now).map some
        | none => .ok none

/-- RestServerParser._try_attestation_endpoint: POST `/attestation`;
non-200 or any failure inside the `try` yields no result. -/
def try_attestation_endpoint (resp : Option HttpResponse)
    (vm_config : VMConfig) (quote : List Char) (cert_fingerprint : List Char)
    (now : Nat) : Except HubError (Option AttestationData) :=
  match resp with
  | none => .error (.vmConnectionError "request failed".toList)
  | some r =>
    if r.status_code ≠ 200 then .ok none
    else
      match r.json with
      | none => .ok none
      | some d =>
        match parse_json_response d vm_config quote cert_fingerprint now with
        | .ok a => .ok (some a)
        | .error _ => .ok none

/-- RestServerParser._try_self_endpoint: GET `/self`; same result shape
as the attestation endpoint. -/
def try_self_endpoint (resp : Option HttpResponse) (vm_config : VMConfig)
    (quote : List Char) (cert_fingerprint : List Char) (now : Nat) :
    Except HubError (Option AttestationData) :=
  match resp with
  | none => .error (.vmConnectionError "request failed".toList)
  | some r =>
    if r.status_code ≠ 200 then .ok none
    else
      match r.json with
      | none => .ok none
      | some d =>
        match parse_json_response d vm_config quote cert_fingerprint now with
        | .ok a => .ok (some a)
        | .error _ => .ok none

/-- The `for method in methods` loop: return the first success, remember
the last exception, raise `ParsingError` if no method returned a result. -/
def tryMethods (results : List (Except HubError (Option AttestationData)))
    (last_error : Option (List Char)) : Except HubError AttestationData :=
  match results with
  | [] =>
    .error (.parsingError ("All REST server methods failed. Last error: ".toList
      ++ last_error.getD "None".toList))
  | .ok (some a) :: _ => .ok a
  | .ok none :: rest => tryMethods rest last_error
  | .error e :: rest => tryMethods rest (some e.msg)

/-- RestServerParser.parse_attestation. -/
def parse_attestation (renv : RestEnv) (quote : List Char)
    (vm_config : VMConfig) (certificate_fingerprint : List Char) (now : Nat) :
    Except HubError AttestationData :=
  if ¬ validate_quote quote then
    .error (.parsingError "Invalid quote format".toList)
  else
    tryMethods
      [try_cpu_endpoint renv.cpu_response vm_config quote
        certificate_fingerprint now,
       try_attestation_endpoint renv.attestation_response vm_config quote
        certificate_fingerprint now,
       try_self_endpoint renv.self_response vm_config quote
        certificate_fingerprint now]
      none

end RestServerParser

/-! ## VMManager (hub/vm_manager.py) -/

/-- VMManager.update_vm_status: unknown VMs are ignored; a `healthy`
update stamps the success time and resets the error state; any other
status increments `error_count` and stores the error. -/
def update_vm_status (statuses : List (List Char × VMStatus))
    (vm_name status : List Char) (error : Option (List Char)) (now : Nat) :
    List (List Char × VMStatus) :=
  match alookup vm_name statuses with
  | none => statuses
  | some vm_status =>
    let vm_status' :=
      if status = "healthy".toList then
        { vm_status with
            status := status
            last_successful_attestation := some now
            error_count := 0
            last_error := none }
      else
        { vm_status with
            status := status
            error_count := vm_status.error_count + 1
            last_error := error }
    aset vm_name vm_status' statuses

/-! ## AttestationHub (hub/service.py) -/

structure HubState where
  cache : List (List Char × CacheEntry)
  vm_statuses : List (List Char × VMStatus)
  cache_hits : Nat
  cache_misses : Nat
deriving DecidableEq

/-- The parser registry after the two `import parsers....` lines in
`AttestationHub.__init__`: `rest_server` and `hardcoded` are registered
(`dcap.py` keeps its registration commented out), so
`ParserFactory.create_parser` succeeds exactly on these names. -/
def registeredStrategies : List (List Char) :=
  ["rest_server".toList, "hardcoded".toList]

def strategyRegistered (strategy : List Char) : Bool :=
  strategy = "rest_server".toList ∨ strategy = "hardcoded".toList

/-- External collaborators of one `get_attestation` call:
`fetch_quote` models `_fetch_quote_from_vm` and `runParse` models
`parser.parse_attestation(quote, vm_config, certificate_fingerprint="")`
of the parser selected by strategy name (for `rest_server` the result
depends on the network; `RestServerParser.parse_attestation` above gives
its pure core, and `HardcodedParser.parse_attestation` can instantiate
the `hardcoded` strategy directly). -/
structure Env where
  fetch_quote : List Char → Except HubError (List Char)
  runParse : List Char → List Char → VMConfig → Nat →
    Except HubError AttestationData

/-- One fetch-then-parse attempt with a given strategy. -/
def attempt (env : Env) (vm_name strategy : List Char) (vm_config : VMConfig)
    (now : Nat) : Except HubError AttestationData :=
  match env.fetch_quote vm_name with
  | .error e => .error e
  | .ok quote => env.runParse strategy quote vm_config now

/-- AttestationHub._get_cached_attestation: expired entries are deleted,
valid hits are promoted to most-recently-used. -/
def get_cached_attestation (cm : ConfigManager) (s : HubState)
    (vm_name : List Char) (now : Nat) : Option AttestationData × HubState :=
  match alookup vm_name s.cache with
  | none => (none, s)
  | some entry =>
    if entry.is_expired now cm.cache_config.ttl then
      (none, { s with cache := adel vm_name s.cache })
    else
      (some entry.data, { s with cache := move_to_end vm_name s.cache })

/-- The size-limit eviction in `_cache_attestation`: drop the oldest
entry when at capacity.  (`popitem` on an empty `OrderedDict` — possible
only with `max_size = 0` — would raise in Python and is not modelled;
theorems that cache assume `1 ≤ max_size`.) -/
def evictIfFull (cm : ConfigManager) (c : List (List Char × CacheEntry)) :
    List (List Char × CacheEntry) :=
  if cm.cache_config.max_size ≤ c.length then c.tail else c

/-- AttestationHub._cache_attestation. -/
def cache_attestation (cm : ConfigManager) (s : HubState) (vm_name : List Char)
    (attestation : AttestationData) (now : Nat) : HubState :=
  let entry : CacheEntry := { data := attestation, created_at := now }
  { s with cache := odset vm_name entry (evictIfFull cm s.cache) }

/-- AttestationHub.get_attestation: cache lookup, then primary
fetch-and-parse (success marks the VM healthy and caches), then the
configured fallback (success marks the VM degraded and caches); if both
fail, `AttestationError` carries the last error.  A failing primary
marks the VM unhealthy before the fallback runs. -/
def get_attestation (cm : ConfigManager) (env : Env) (now : Nat)
    (s : HubState) (vm_name : List Char) :
    Except HubError AttestationData × HubState :=
  let c := get_cached_attestation cm s vm_name now
  match c.1 with
  | some cached => (.ok cached, { c.2 with cache_hits := c.2.cache_hits + 1 })
  | none =>
    let s2 := { c.2 with cache_misses := c.2.cache_misses + 1 }
    match alookup vm_name cm.vm_configs with
    | none =>
      (.error (.attestationError ("VM not configured: ".toList ++ vm_name)), s2)
    | some vm_config =>
      if strategyRegistered vm_config.parsing_strategy then
        match attempt env vm_name vm_config.parsing_strategy vm_config now with
        | .ok attestation =>
          let s3 := { s2 with vm_statuses := (update_vm_status
            s2.vm_statuses vm_name "healthy".toList none now) }
          (.ok attestation, cache_attestation cm s3 vm_name attestation now)
        | .error e =>
          let s3 := { s2 with vm_statuses := (update_vm_status
            s2.vm_statuses vm_name "unhealthy".toList (some e.msg) now) }
          match vm_config.fallback_strategy with
          | none =>
            (.error (.attestationError
              ("All parsing strategies failed for ".toList ++ vm_name
                ++ ": ".toList ++ e.msg)), s3)
          | some fs =>
            if strategyRegistered fs then
              match attempt env vm_name fs vm_config now with
              | .ok attestation =>
                let s4 := { s3 with vm_statuses := (update_vm_status
                  s3.vm_statuses vm_name "degraded".toList
                  (some ("Using fallback parser: ".toList ++ fs)) now) }
                (.ok attestation, cache_attestation cm s4 vm_name attestation now)
              | .error e2 =>
                (.error (.attestationError
                  ("All parsing strategies failed for ".toList ++ vm_name
                    ++ ": ".toList ++ e2.msg)), s3)
            else
              (.error (.attestationError
                ("All parsing strategies failed for ".toList ++ vm_name
                  ++ ": ".toList ++ e.msg)), s3)
      else
        (.error (.attestationError
          ("Parser not found: ".toList ++ vm_config.parsing_strategy)), s2)

/-- AttestationHub.get_dual_attestation: both designated peers are
fetched under one freshly generated correlation id (modelled as the
`correlation_id` argument); `asyncio.gather` is modelled by running the
two sub-calls in sequence over the shared state.  Any error on either
half raises `AttestationError` with the collected error strings. -/
def get_dual_attestation (cm : ConfigManager) (env : Env) (now : Nat)
    (s : HubState) (correlation_id : List Char) :
    Except HubError DualAttestationData × HubState :=
  let p1 := get_attestation cm env now s "secretai".toList
  let p2 := get_attestation cm env now p1.2 "secretgpt".toList
  match p1.1, p2.1 with
  | .error e1, .error e2 =>
    (.error (.attestationError ("Dual attestation failed: secretai: ".toList
      ++ e1.msg ++ "; secretgpt: ".toList ++ e2.msg)), p2.2)
  | .error e1, .ok _ =>
    (.error (.attestationError ("Dual attestation failed: secretai: ".toList
      ++ e1.msg)), p2.2)
  | .ok _, .error e2 =>
    (.error (.attestationError ("Dual attestation failed: secretgpt: ".toList
      ++ e2.msg)), p2.2)
  | .ok a1, .ok a2 =>
    (.ok { secretai := a1, secretgpt := a2, timestamp := now,
           correlation_id := correlation_id }, p2.2)

/-- The `asyncio.gather(..., return_exceptions=True)` fan-out: each VM's
`get_attestation` outcome is captured (never re-raised), in task order,
threading the shared hub state. -/
def run_gather (cm : ConfigManager) (env : Env) (now : Nat) (s : HubState) :
    List (List Char) →
    List (List Char × Except HubError AttestationData) × HubState
  | [] => ([], s)
  | n :: rest =>
    let p := get_attestation cm env now s n
    let q := run_gather cm env now p.2 rest
    ((n, p.1) :: q.1, q.2)

/-- The result-map construction: failing VMs are logged and omitted. -/
def collect_ok : List (List Char × Except HubError AttestationData) →
    List (List Char × AttestationData)
  | [] => []
  | (n, .ok a) :: rest => (n, a) :: collect_ok rest
  | (_, .error _) :: rest => collect_ok rest

/-- AttestationHub.get_all_attestations: fan out over every configured
VM (the task dict has one entry per distinct name) and keep the
successes. -/
def get_all_attestations (cm : ConfigManager) (env : Env) (now : Nat)
    (s : HubState) : List (List Char × AttestationData) × HubState :=
  let p := run_gather cm env now s (pyDedup (cm.vm_configs.map Prod.fst))
  (collect_ok p.1, p.2)

/-- AttestationHub.get_batch_attestations: every requested name is
validated against the configured set before any task is created; unknown
names raise `AttestationError` immediately. -/
def get_batch_attestations (cm : ConfigManager) (env : Env) (now : Nat)
    (s : HubState) (vm_names : List (List Char)) :
    Except HubError (List (List Char × AttestationData)) × HubState :=
  let invalid := vm_names.filter (fun n => (alookup n cm.vm_configs).isNone)
  if invalid = [] then
    let p := run_gather cm env now s (pyDedup vm_names)
    (.ok (collect_ok p.1), p.2)
  else
    (.error (.attestationError ("Unknown VMs: ".toList
      ++ List.intercalate ", ".toList invalid)), s)

/-- AttestationHub.get_cache_hit_rate: `hits / (hits + misses)`, defined
as `0.0` when no lookup has happened yet. -/
def get_cache_hit_rate (s : HubState) : ℚ :=
  let total := s.cache_hits + s.cache_misses
  if total = 0 then 0 else (s.cache_hits : ℚ) / (total : ℚ)

/-- AttestationHub.get_service_health. -/
def get_service_health (s : HubState) (now start_time : Nat) : ServiceHealth :=
  let healthy_vms :=
    (s.vm_statuses.filter (fun p => p.2.status = "healthy".toList)).length
  let total_vms := s.vm_statuses.length
  let status :=
    if healthy_vms = total_vms then ServiceStatus.healthy
    else if healthy_vms > 0 then ServiceStatus.degraded
    else ServiceStatus.unhealthy
  { status := status
    vms_online := healthy_vms
    vms_total := total_vms
    cache_hit_rate := get_cache_hit_rate s
    uptime_seconds := now - start_time
    version := "1.0.0".toList
    vm_statuses := s.vm_statuses }

/-- Repeated `get_attestation` calls on one VM at one time instant. -/
def iterate_calls (cm : ConfigManager) (env : Env) (now : Nat)
    (vm_name : List Char) : Nat → HubState → HubState
  | 0, s => s
  | k + 1, s => iterate_calls cm env now vm_name k
      (get_attestation cm env now s vm_name).2

/-! ## Concrete instances used to evaluate the definitions -/

/-- A deployment-shaped secretgpt configuration (rest_server primary,
hardcoded fallback). -/
def cfgW : VMConfig :=
  { endpoint := "https://localhost:29343".toList
    type := "secret-gpt".toList
    parsing_strategy := "rest_server".toList
    fallback_strategy := some "hardcoded".toList }

def cmW : ConfigManager :=
  { vm_configs := [("secretgpt".toList, cfgW)], cache_config := {} }

def stGpt0 : VMStatus :=
  { vm_name := "secretgpt".toList
    endpoint := cfgW.endpoint
    status := "unknown".toList }

def stW : HubState :=
  { cache := []
    vm_statuses := [("secretgpt".toList, stGpt0)]
    cache_hits := 0
    cache_misses := 0 }

def attW : AttestationData :=
  { vm_name := "secretgpt".toList
    vm_type := "secret-gpt".toList
    mrtd := List.replicate 96 'a'
    rtmr0 := List.replicate 96 'a'
    rtmr1 := List.replicate 96 'a'
    rtmr2 := List.replicate 96 'a'
    rtmr3 := List.replicate 96 'a'
    report_data := List.replicate 64 'a'
    certificate_fingerprint := []
    timestamp := 0
    raw_quote := []
    parsing_method := "hardcoded".toList }

/-- An environment where fetching succeeds, the rest_server strategy
fails and the hardcoded strategy succeeds. -/
def envW : Env :=
  { fetch_quote := fun _ => .ok []
    runParse := fun strategy _ _ _ =>
      if strategy = "hardcoded".toList then .ok attW
      else .error (.parsingError
        "All REST server methods failed. Last error: None".toList) }

/-- An environment where every strategy succeeds. -/
def envOk : Env :=
  { fetch_quote := fun _ => .ok []
    runParse := fun _ _ _ _ => .ok attW }

/-- An environment where nothing is reachable. -/
def envFail : Env :=
  { fetch_quote := fun _ => .error (.vmConnectionError
      "Quote retrieval not implemented for secretai".toList)
    runParse := fun _ _ _ _ => .error (.parsingError
      "All REST server methods failed. Last error: None".toList) }

/-- A hub with no configured VMs. -/
def cmEmpty : ConfigManager := { vm_configs := [], cache_config := {} }

def stEmpty : HubState :=
  { cache := [], vm_statuses := [], cache_hits := 0, cache_misses := 0 }

/-- A valid 2000-hex-character quote. -/
def quoteAll : List Char := List.replicate 2000 'a'

/-- Accepted by `int(quote, 16)` thanks to the `0x` marker, yet not a
string of hex characters. -/
def quotePfx : List Char := '0' :: 'x' :: List.replicate 1998 'a'

/-- The attestation produced by `HardcodedParser` from `quoteAll` with
the `cfgW` endpoint. -/
def attAll : AttestationData :=
  { vm_name := "secretgpt".toList
    vm_type := "secret-gpt".toList
    mrtd := List.replicate 96 'a'
    rtmr0 := List.replicate 96 'a'
    rtmr1 := List.replicate 96 'a'
    rtmr2 := List.replicate 96 'a'
    rtmr3 := List.replicate 96 'a'
    report_data := List.replicate 64 'a'
    certificate_fingerprint := []
    timestamp := 0
    raw_quote := quoteAll
    parsing_method := "hardcoded".toList }

/-- A REST attestation server whose `/cpu` endpoint answers 200 with an
empty JSON object. -/
def renvEmptyJson : RestEnv :=
  { cpu_response := some
      { status_code := 200, content_type_json := true,
        json := some {}, text := [] }
    attestation_response := some
      { status_code := 500, content_type_json := false,
        json := none, text := [] }
    self_response := some
      { status_code := 500, content_type_json := false,
        json := none, text := [] } }

/-! ## Association-list lemmas -/

theorem alookup_append_of_none {β : Type} (k : List Char)
    (l1 l2 : List (List Char × β)) (h : alookup k l1 = none) :
    alookup k (l1 ++ l2) = alookup k l2 := by
  induction l1 with
  | nil => simp
  | cons p rest ih =>
    obtain ⟨k1, v⟩ := p
    by_cases hk : k = k1
    · simp [alookup, hk] at h
    · simp only [alookup, if_neg hk] at h
      simpa [alookup, if_neg hk] using ih h

theorem alookup_aset_self {β : Type} (k : List Char) (v : β)
    (l : List (List Char × β)) (h : (alookup k l).isSome) :
    alookup k (aset k v l) = some v := by
  induction l with
  | nil => simp [alookup] at h
  | cons p rest ih =>
    obtain ⟨k1, v1⟩ := p
    by_cases hk : k = k1
    · simp [aset, alookup, hk]
    · simp only [alookup, if_neg hk] at h
      simpa [aset, alookup, if_neg hk] using ih h

theorem alookup_odset_self {β : Type} (k : List Char) (v : β)
    (l : List (List Char × β)) : alookup k (odset k v l) = some v := by
  unfold odset
  by_cases h : (alookup k l).isSome
  · simpa [h] using alookup_aset_self k v l h
  · have hnone : alookup k l = none := Option.not_isSome_iff_eq_none.mp h
    rw [hnone]
    simp only [Option.isSome_none, Bool.false_eq_true, if_false]
    rw [alookup_append_of_none k l _ hnone]
    simp [alookup]

theorem alookup_update_vm_status (sts : List (List Char × VMStatus))
    (vm status : List Char) (err : Option (List Char)) (now : Nat)
    (st : VMStatus) (h : alookup vm sts = some st) :
    alookup vm (update_vm_status sts vm status err now) =
      some (if status = "healthy".toList then
        { st with status := status, last_successful_attestation := some now,
                  error_count := 0, last_error := none }
      else
        { st with status := status, error_count := st.error_count + 1,
                  last_error := err }) := by
  unfold update_vm_status
  rw [h]
  exact alookup_aset_self vm _ sts (by simp [h])

/-! ## C8 — the synthesized default configuration -/

/-- C8, counterexample: the claim says each default VM has
`fallback_strategy = "hardcoded"`, but the synthesized `secretai`
configuration has no fallback strategy at all. -/
theorem c8_counterexample :
    (alookup "secretai".toList (load_vm_configs none).1).map
        VMConfig.fallback_strategy = some none ∧
    (alookup "secretai".toList (load_vm_configs none).1).map
        VMConfig.fallback_strategy ≠ some (some "hardcoded".toList) := by
  constructor
  · decide
  · decide

/-- C8 (amended): with no persisted document, `_load_vm_configs`
synthesizes exactly the two peer VMs `secretai` and `secretgpt`, both
with parsing_strategy `rest_server`; `secretgpt` gets the `hardcoded`
fallback while `secretai` gets none; and the synthesized configuration
is written back to the document store. -/
theorem c8_default_config :
    (load_vm_configs none).1.map Prod.fst =
      ["secretai".toList, "secretgpt".toList] ∧
    ((load_vm_configs none).1.all
      (fun p => p.2.parsing_strategy = "rest_server".toList)) = true ∧
    (alookup "secretgpt".toList (load_vm_configs none).1).map
        VMConfig.fallback_strategy = some (some "hardcoded".toList) ∧
    (alookup "secretai".toList (load_vm_configs none).1).map
        VMConfig.fallback_strategy = some none ∧
    (load_vm_configs none).2 = some { vms := (load_vm_configs none).1 } := by
  refine ⟨by decide, by decide, by decide, by decide, rfl⟩

/-! ## C9 — VM status bookkeeping -/

/-- C9: for a registered VM, a `healthy` update resets `error_count`,
stamps `last_successful_attestation` and clears `last_error`; any other
update increments `error_count` and stores the supplied error — so an
update can leave `error_count = 0` only if its status was `healthy`. -/
theorem c9_update_vm_status (sts : List (List Char × VMStatus))
    (vm status : List Char) (err : Option (List Char)) (now : Nat)
    (st : VMStatus) (h : alookup vm sts = some st) :
    (status = "healthy".toList →
      alookup vm (update_vm_status sts vm status err now) =
        some { st with status := status,
                       last_successful_attestation := some now,
                       error_count := 0, last_error := none }) ∧
    (status ≠ "healthy".toList →
      alookup vm (update_vm_status sts vm status err now) =
        some { st with status := status,
                       error_count := st.error_count + 1,
                       last_error := err }) ∧
    (∀ st2, alookup vm (update_vm_status sts vm status err now) = some st2 →
      st2.error_count = 0 → status = "healthy".toList) := by
  have hbase := alookup_update_vm_status sts vm status err now st h
  refine ⟨fun hh => ?_, fun hh => ?_, fun st2 h2 hz => ?_⟩
  · rw [hbase, if_pos hh]
  · rw [hbase, if_neg hh]
  · by_contra hne
    rw [hbase, if_neg hne] at h2
    have : st2.error_count = st.error_count + 1 := by
      cases Option.some.inj h2
      rfl
    omega

/-- C9, witness at a concrete registered VM. -/
theorem c9_update_vm_status_witness :
    (("unhealthy".toList : List Char) = "healthy".toList →
      alookup "secretgpt".toList
        (update_vm_status stW.vm_statuses "secretgpt".toList
          "unhealthy".toList (some "boom".toList) 7) =
        some { stGpt0 with
                 status := "unhealthy".toList
                 last_successful_attestation := some 7
                 error_count := 0
                 last_error := none }) ∧
    (("unhealthy".toList : List Char) ≠ "healthy".toList →
      alookup "secretgpt".toList
        (update_vm_status stW.vm_statuses "secretgpt".toList
          "unhealthy".toList (some "boom".toList) 7) =
        some { stGpt0 with
                 status := "unhealthy".toList
                 error_count := stGpt0.error_count + 1
                 last_error := some "boom".toList }) ∧
    (∀ st2, alookup "secretgpt".toList
        (update_vm_status stW.vm_statuses "secretgpt".toList
          "unhealthy".toList (some "boom".toList) 7) = some st2 →
      st2.error_count = 0 → ("unhealthy".toList : List Char) = "healthy".toList) :=
  c9_update_vm_status stW.vm_statuses "secretgpt".toList "unhealthy".toList
    (some "boom".toList) 7 stGpt0 (by decide)

/-! ## C10 — total cache hit rate -/

/-- C10: with no lookups recorded, `get_cache_hit_rate` returns `0`
instead of dividing by zero, and `get_service_health` therefore reports
a well-defined `cache_hit_rate` from the start. -/
theorem c10_cache_hit_rate_total (s : HubState) (now start_time : Nat)
    (h : s.cache_hits + s.cache_misses = 0) :
    get_cache_hit_rate s = 0 ∧
    (get_service_health s now start_time).cache_hit_rate = 0 := by
  have h1 : get_cache_hit_rate s = 0 := by
    unfold get_cache_hit_rate
    simp [h]
  exact ⟨h1, h1⟩

/-- C10, witness at the freshly started hub state. -/
theorem c10_cache_hit_rate_total_witness :
    get_cache_hit_rate stEmpty = 0 ∧
    (get_service_health stEmpty 5 3).cache_hit_rate = 0 :=
  c10_cache_hit_rate_total stEmpty 5 3 (by decide)

/-! ## C4 — batch fail-fast validation -/

/-- C4: a batch request naming an unconfigured VM raises
`AttestationError` before any fetch or parse is attempted: the hub state
(statuses, cache, counters) is returned unchanged and the entire call is
independent of the fetch/parse environment. -/
theorem c4_batch_fail_fast (cm : ConfigManager) (env : Env) (now : Nat)
    (s : HubState) (vm_names : List (List Char)) (n : List Char)
    (hn : n ∈ vm_names) (hbad : alookup n cm.vm_configs = none) :
    (∃ msg, (get_batch_attestations cm env now s vm_names).1 =
      .error (.attestationError msg)) ∧
    (get_batch_attestations cm env now s vm_names).2 = s ∧
    (∀ env2, get_batch_attestations cm env2 now s vm_names =
      get_batch_attestations cm env now s vm_names) := by
  have hmem : n ∈ vm_names.filter
      (fun m => (alookup m cm.vm_configs).isNone) := by
    simp only [List.mem_filter]
    exact ⟨hn, by simp [hbad]⟩
  have hne : vm_names.filter (fun m => (alookup m cm.vm_configs).isNone)
      ≠ [] := List.ne_nil_of_mem hmem
  have key : ∀ envx : Env, get_batch_attestations cm envx now s vm_names =
      (.error (.attestationError ("Unknown VMs: ".toList
        ++ List.intercalate ", ".toList (vm_names.filter
          (fun m => (alookup m cm.vm_configs).isNone)))), s) := by
    intro envx
    simp only [get_batch_attestations]
    rw [if_neg hne]
  refine ⟨⟨"Unknown VMs: ".toList ++ List.intercalate ", ".toList
    (vm_names.filter (fun m => (alookup m cm.vm_configs).isNone)), ?_⟩,
    ?_, fun env2 => ?_⟩
  · rw [key env]
  · rw [key env]
  · rw [key env2, key env]

/-- C4, witness: requesting the unconfigured name `nonexistent` against
the deployment-shaped configuration. -/
theorem c4_batch_fail_fast_witness :
    (∃ msg, (get_batch_attestations cmW envW 0 stW
      ["nonexistent".toList]).1 = .error (.attestationError msg)) ∧
    (get_batch_attestations cmW envW 0 stW ["nonexistent".toList]).2 = stW ∧
    (∀ env2, get_batch_attestations cmW env2 0 stW ["nonexistent".toList] =
      get_batch_attestations cmW envW 0 stW ["nonexistent".toList]) :=
  c4_batch_fail_fast cmW envW 0 stW ["nonexistent".toList]
    "nonexistent".toList (by decide) (by decide)

/-! ## C2 — dual attestation is all-or-nothing -/

/-- C2: `get_dual_attestation` returns a `DualAttestationData` only when
both peer sub-calls succeed — and then the result pairs exactly those two
successes under the single correlation id generated for the call — while
a failure of either sub-call makes the whole call raise
`AttestationError`, so no partial dual result is ever produced. -/
theorem c2_dual_all_or_nothing (cm : ConfigManager) (env : Env) (now : Nat)
    (s : HubState) (corr : List Char) :
    (∀ d, (get_dual_attestation cm env now s corr).1 = .ok d →
      d.correlation_id = corr ∧
      (get_attestation cm env now s "secretai".toList).1 = .ok d.secretai ∧
      (get_attestation cm env now
        (get_attestation cm env now s "secretai".toList).2
        "secretgpt".toList).1 = .ok d.secretgpt) ∧
    (((∃ e, (get_attestation cm env now s "secretai".toList).1 = .error e) ∨
      (∃ e, (get_attestation cm env now
        (get_attestation cm env now s "secretai".toList).2
        "secretgpt".toList).1 = .error e)) →
      ∃ msg, (get_dual_attestation cm env now s corr).1 =
        .error (.attestationError msg)) := by
  cases h1 : (get_attestation cm env now s "secretai".toList).1 with
  | error e1 =>
    cases h2 : (get_attestation cm env now
        (get_attestation cm env now s "secretai".toList).2
        "secretgpt".toList).1 with
    | error e2 =>
      have hkey : (get_dual_attestation cm env now s corr).1 =
          .error (.attestationError
            ("Dual attestation failed: secretai: ".toList ++ e1.msg
              ++ "; secretgpt: ".toList ++ e2.msg)) := by
        simp only [get_dual_attestation]
        rw [h1, h2]
      refine ⟨fun d hd => ?_, fun _ => ⟨_, hkey⟩⟩
      rw [hkey] at hd
      simp at hd
    | ok a2 =>
      have hkey : (get_dual_attestation cm env now s corr).1 =
          .error (.attestationError
            ("Dual attestation failed: secretai: ".toList ++ e1.msg)) := by
        simp only [get_dual_attestation]
        rw [h1, h2]
      refine ⟨fun d hd => ?_, fun _ => ⟨_, hkey⟩⟩
      rw [hkey] at hd
      simp at hd
  | ok a1 =>
    cases h2 : (get_attestation cm env now
        (get_attestation cm env now s "secretai".toList).2
        "secretgpt".toList).1 with
    | error e2 =>
      have hkey : (get_dual_attestation cm env now s corr).1 =
          .error (.attestationError
            ("Dual attestation failed: secretgpt: ".toList ++ e2.msg)) := by
        simp only [get_dual_attestation]
        rw [h1, h2]
      refine ⟨fun d hd => ?_, fun _ => ⟨_, hkey⟩⟩
      rw [hkey] at hd
      simp at hd
    | ok a2 =>
      have hkey : (get_dual_attestation cm env now s corr).1 =
          .ok ⟨a1, a2, now, corr⟩ := by
        simp only [get_dual_attestation]
        rw [h1, h2]
      refine ⟨fun d hd => ?_, fun he => ?_⟩
      · rw [hkey] at hd
        have hd2 := Except.ok.inj hd
        subst hd2
        exact ⟨rfl, rfl, rfl⟩
      · rcases he with ⟨e, he⟩ | ⟨e, he⟩ <;> simp at he

/-- C2, witness: with no VMs configured, the secretai half fails and the
dual call raises `AttestationError`. -/
theorem c2_dual_all_or_nothing_witness :
    ∃ msg, (get_dual_attestation cmEmpty envFail 0 stEmpty
      "corr-1".toList).1 = .error (.attestationError msg) :=
  (c2_dual_all_or_nothing cmEmpty envFail 0 stEmpty "corr-1".toList).2
    (Or.inl ⟨.attestationError
      ("VM not configured: ".toList ++ "secretai".toList), rfl⟩)

/-! ## C3 — all/batch queries tolerate individual failures -/

theorem run_gather_fst (cm : ConfigManager) (env : Env) (now : Nat)
    (s : HubState) (names : List (List Char)) :
    ((run_gather cm env now s names).1).map Prod.fst = names := by
  induction names generalizing s with
  | nil => simp [run_gather]
  | cons n rest ih => simp [run_gather, ih]

theorem pyDedup_nodup (l : List (List Char)) : (pyDedup l).Nodup := by
  induction l with
  | nil => simp [pyDedup]
  | cons n rest ih =>
    rw [pyDedup, List.nodup_cons]
    refine ⟨fun hmem => ?_, ih.filter _⟩
    have := List.mem_filter.mp hmem
    simp at this

theorem alookup_collect_ok_none
    (outs : List (List Char × Except HubError AttestationData))
    (n : List Char) (hmem : n ∉ outs.map Prod.fst) :
    alookup n (collect_ok outs) = none := by
  induction outs with
  | nil => simp [collect_ok, alookup]
  | cons p rest ih =>
    obtain ⟨n1, r1⟩ := p
    simp only [List.map_cons, List.mem_cons] at hmem
    push_neg at hmem
    cases r1 with
    | ok a =>
      rw [collect_ok, alookup, if_neg hmem.1]
      exact ih hmem.2
    | error e =>
      rw [collect_ok]
      exact ih hmem.2

theorem alookup_collect_ok
    (outs : List (List Char × Except HubError AttestationData))
    (hnd : (outs.map Prod.fst).Nodup) (n : List Char)
    (r : Except HubError AttestationData) (hmem : (n, r) ∈ outs) :
    alookup n (collect_ok outs) = r.toOption := by
  induction outs with
  | nil => simp at hmem
  | cons p rest ih =>
    obtain ⟨n1, r1⟩ := p
    simp only [List.map_cons, List.nodup_cons] at hnd
    rcases List.mem_cons.mp hmem with heq | htail
    · injection heq with hn hr
      subst hn
      subst hr
      cases r with
      | ok a => simp [collect_ok, alookup, Except.toOption]
      | error e =>
        rw [collect_ok]
        rw [alookup_collect_ok_none rest n hnd.1]
        rfl
    · have hne : n ≠ n1 := by
        intro heq2
        subst heq2
        exact hnd.1 (List.mem_map_of_mem Prod.fst htail)
      cases r1 with
      | ok a =>
        rw [collect_ok, alookup, if_neg hne]
        exact ih hnd.2 htail
      | error e =>
        rw [collect_ok]
        exact ih hnd.2 htail

/-- C3: per-VM failures never make `get_all_attestations` or a
fully-configured `get_batch_attestations` raise: each VM whose gathered
outcome succeeded appears in the returned map with its result, and each
VM whose outcome failed is simply absent (`r.toOption` is `some`/`none`
respectively). -/
theorem c3_partial_tolerance (cm : ConfigManager) (env : Env) (now : Nat)
    (s : HubState) (names : List (List Char))
    (hall : ∀ n ∈ names, (alookup n cm.vm_configs).isSome) :
    (∀ n r, (n, r) ∈ (run_gather cm env now s
        (pyDedup (cm.vm_configs.map Prod.fst))).1 →
      alookup n (get_all_attestations cm env now s).1 = r.toOption) ∧
    (∃ m, (get_batch_attestations cm env now s names).1 = .ok m ∧
      ∀ n r, (n, r) ∈ (run_gather cm env now s (pyDedup names)).1 →
        alookup n m = r.toOption) := by
  constructor
  · intro n r hmem
    have hnd : (((run_gather cm env now s
        (pyDedup (cm.vm_configs.map Prod.fst))).1).map Prod.fst).Nodup := by
      rw [run_gather_fst]
      exact pyDedup_nodup _
    exact alookup_collect_ok _ hnd n r hmem
  · have hfil : names.filter (fun m => (alookup m cm.vm_configs).isNone)
        = [] := by
      rw [List.filter_eq_nil_iff]
      intro a ha
      simp [Option.isNone_iff_eq_none,
        Option.isSome_iff_ne_none.mp (hall a ha)]
    refine ⟨collect_ok (run_gather cm env now s (pyDedup names)).1, ?_, ?_⟩
    · simp [get_batch_attestations, hfil]
    · intro n r hmem
      have hnd : (((run_gather cm env now s
          (pyDedup names)).1).map Prod.fst).Nodup := by
        rw [run_gather_fst]
        exact pyDedup_nodup _
      exact alookup_collect_ok _ hnd n r hmem

/-- C3, witness at the deployment-shaped configuration with a batch
request for the configured VM. -/
theorem c3_partial_tolerance_witness :
    (∀ n r, (n, r) ∈ (run_gather cmW envW 0 stW
        (pyDedup (cmW.vm_configs.map Prod.fst))).1 →
      alookup n (get_all_attestations cmW envW 0 stW).1 = r.toOption) ∧
    (∃ m, (get_batch_attestations cmW envW 0 stW
        ["secretgpt".toList]).1 = .ok m ∧
      ∀ n r, (n, r) ∈ (run_gather cmW envW 0 stW
          (pyDedup ["secretgpt".toList])).1 →
        alookup n m = r.toOption) :=
  c3_partial_tolerance cmW envW 0 stW ["secretgpt".toList] (by decide)

/-! ## Lemmas about the cache-miss and cache-hit paths -/

theorem get_cached_vm_statuses (cm : ConfigManager) (s : HubState)
    (vm : List Char) (now : Nat) :
    (get_cached_attestation cm s vm now).2.vm_statuses = s.vm_statuses := by
  unfold get_cached_attestation
  rcases alookup vm s.cache with _ | entry
  · rfl
  · dsimp only
    split
    · rfl
    · rfl

theorem get_cached_cache_hits (cm : ConfigManager) (s : HubState)
    (vm : List Char) (now : Nat) :
    (get_cached_attestation cm s vm now).2.cache_hits = s.cache_hits := by
  unfold get_cached_attestation
  rcases alookup vm s.cache with _ | entry
  · rfl
  · dsimp only
    split
    · rfl
    · rfl

theorem get_cached_cache_misses (cm : ConfigManager) (s : HubState)
    (vm : List Char) (now : Nat) :
    (get_cached_attestation cm s vm now).2.cache_misses = s.cache_misses := by
  unfold get_cached_attestation
  rcases alookup vm s.cache with _ | entry
  · rfl
  · dsimp only
    split
    · rfl
    · rfl

/-! ## C1 — fallback success leaves the VM degraded and cached -/

/-- C1: on a cache miss where the primary fetch-and-parse attempt fails
but the configured fallback strategy resolves to a registered parser and
its attempt succeeds with data `d`, `get_attestation` returns `d`,
caches it under the VM's name, and leaves the VM's status exactly
`"degraded"` — which is neither `"healthy"` nor `"unhealthy"`. -/
theorem c1_fallback_degraded (cm : ConfigManager) (env : Env) (now : Nat)
    (s : HubState) (vm : List Char) (cfg : VMConfig) (fs : List Char)
    (d : AttestationData) (e : HubError)
    (hmiss : (get_cached_attestation cm s vm now).1 = none)
    (hcfg : alookup vm cm.vm_configs = some cfg)
    (hreg : strategyRegistered cfg.parsing_strategy = true)
    (hfail : attempt env vm cfg.parsing_strategy cfg now = .error e)
    (hfs : cfg.fallback_strategy = some fs)
    (hfsreg : strategyRegistered fs = true)
    (hfb : attempt env vm fs cfg now = .ok d)
    (hst : (alookup vm s.vm_statuses).isSome = true) :
    (get_attestation cm env now s vm).1 = .ok d ∧
    alookup vm (get_attestation cm env now s vm).2.cache =
      some { data := d, created_at := now } ∧
    (alookup vm (get_attestation cm env now s vm).2.vm_statuses).map
      VMStatus.status = some "degraded".toList ∧
    ("degraded".toList : List Char) ≠ "healthy".toList ∧
    ("degraded".toList : List Char) ≠ "unhealthy".toList := by
  obtain ⟨st, hstEq⟩ := Option.isSome_iff_exists.mp hst
  have hstEq2 : alookup vm (get_cached_attestation cm s vm now).2.vm_statuses
      = some st := by rw [get_cached_vm_statuses]; exact hstEq
  have h1 := alookup_update_vm_status
    (get_cached_attestation cm s vm now).2.vm_statuses vm
    "unhealthy".toList (some e.msg) now st hstEq2
  rw [if_neg (by decide)] at h1
  have h2 := alookup_update_vm_status _ vm "degraded".toList
    (some ("Using fallback parser: ".toList ++ fs)) now _ h1
  rw [if_neg (by decide)] at h2
  refine ⟨?_, ?_, ?_, by decide, by decide⟩
  · simp only [get_attestation, hmiss, hcfg, hreg, hfail, hfs, hfsreg, hfb,
      if_true]
  · simp only [get_attestation, hmiss, hcfg, hreg, hfail, hfs, hfsreg, hfb,
      if_true, cache_attestation]
    exact alookup_odset_self vm _ _
  · simp only [get_attestation, hmiss, hcfg, hreg, hfail, hfs, hfsreg, hfb,
      if_true, cache_attestation]
    rw [h2]
    rfl

/-- C1, witness: a deployment-shaped VM whose rest_server primary fails
and whose hardcoded fallback succeeds. -/
theorem c1_fallback_degraded_witness :
    (get_attestation cmW envW 0 stW "secretgpt".toList).1 = .ok attW ∧
    alookup "secretgpt".toList
      (get_attestation cmW envW 0 stW "secretgpt".toList).2.cache =
      some { data := attW, created_at := 0 } ∧
    (alookup "secretgpt".toList
      (get_attestation cmW envW 0 stW "secretgpt".toList).2.vm_statuses).map
      VMStatus.status = some "degraded".toList ∧
    ("degraded".toList : List Char) ≠ "healthy".toList ∧
    ("degraded".toList : List Char) ≠ "unhealthy".toList :=
  c1_fallback_degraded cmW envW 0 stW "secretgpt".toList cfgW
    "hardcoded".toList attW
    (.parsingError "All REST server methods failed. Last error: None".toList)
    rfl rfl (by decide) rfl rfl (by decide) rfl (by decide)

/-! ## C5 — cache idempotence and hit rate -/

theorem get_attestation_hit (cm : ConfigManager) (env : Env) (now : Nat)
    (s : HubState) (vm : List Char) (entry : CacheEntry)
    (hmem : alookup vm s.cache = some entry)
    (hfresh : entry.is_expired now cm.cache_config.ttl = false) :
    (get_attestation cm env now s vm).1 = .ok entry.data ∧
    (get_attestation cm env now s vm).2.cache =
      adel vm s.cache ++ [(vm, entry)] ∧
    (get_attestation cm env now s vm).2.cache_hits = s.cache_hits + 1 ∧
    (get_attestation cm env now s vm).2.cache_misses = s.cache_misses ∧
    (get_attestation cm env now s vm).2.vm_statuses = s.vm_statuses := by
  have hc : get_cached_attestation cm s vm now =
      (some entry.data,
        { s with cache := adel vm s.cache ++ [(vm, entry)] }) := by
    simp only [get_cached_attestation, hmem, hfresh, move_to_end,
      Bool.false_eq_true, if_false]
  refine ⟨?_, ?_, ?_, ?_, ?_⟩ <;> simp only [get_attestation, hc]

theorem get_attestation_miss_ok (cm : ConfigManager) (env : Env) (now : Nat)
    (s : HubState) (vm : List Char) (d : AttestationData)
    (hmiss : (get_cached_attestation cm s vm now).1 = none)
    (hok : (get_attestation cm env now s vm).1 = .ok d) :
    (get_attestation cm env now s vm).2.cache =
      odset vm { data := d, created_at := now }
        (evictIfFull cm (get_cached_attestation cm s vm now).2.cache) ∧
    (get_attestation cm env now s vm).2.cache_hits = s.cache_hits ∧
    (get_attestation cm env now s vm).2.cache_misses = s.cache_misses + 1 := by
  rcases hcfg : alookup vm cm.vm_configs with _ | cfg
  · exfalso
    simp [get_attestation, hmiss, hcfg] at hok
  · by_cases hreg : strategyRegistered cfg.parsing_strategy = true
    · rcases hp : attempt env vm cfg.parsing_strategy cfg now with e | att
      · rcases hfs : cfg.fallback_strategy with _ | fs
        · exfalso
          simp [get_attestation, hmiss, hcfg, hreg, hp, hfs] at hok
        · by_cases hfr : strategyRegistered fs = true
          · rcases hq : attempt env vm fs cfg now with e2 | att2
            · exfalso
              simp [get_attestation, hmiss, hcfg, hreg, hp, hfs, hfr, hq]
                at hok
            · have hatt : att2 = d := by
                simpa [get_attestation, hmiss, hcfg, hreg, hp, hfs, hfr, hq]
                  using hok
              subst hatt
              refine ⟨?_, ?_, ?_⟩ <;>
                simp [get_attestation, hmiss, hcfg, hreg, hp, hfs, hfr, hq,
                  cache_attestation, get_cached_cache_hits,
                  get_cached_cache_misses]
          · exfalso
            simp [get_attestation, hmiss, hcfg, hreg, hp, hfs, hfr] at hok
      · have hatt : att = d := by
          simpa [get_attestation, hmiss, hcfg, hreg, hp] using hok
        subst hatt
        refine ⟨?_, ?_, ?_⟩ <;>
          simp [get_attestation, hmiss, hcfg, hreg, hp, cache_attestation,
            get_cached_cache_hits, get_cached_cache_misses]
    · exfalso
      simp [get_attestation, hmiss, hcfg, hreg] at hok

theorem iterate_calls_steady (cm : ConfigManager) (env : Env) (now : Nat)
    (vm : List Char) (entry : CacheEntry) (k : Nat)
    (hfresh : entry.is_expired now cm.cache_config.ttl = false) :
    ∀ s2 : HubState, s2.cache = [(vm, entry)] →
      (iterate_calls cm env now vm k s2).cache = [(vm, entry)] ∧
      (iterate_calls cm env now vm k s2).cache_hits = s2.cache_hits + k ∧
      (iterate_calls cm env now vm k s2).cache_misses = s2.cache_misses := by
  induction k with
  | zero => intro s2 hcache; simp [iterate_calls, hcache]
  | succ k ih =>
    intro s2 hcache
    have hmem : alookup vm s2.cache = some entry := by
      rw [hcache]; simp [alookup]
    obtain ⟨hv, hcac, hhit, hmis, hsts⟩ :=
      get_attestation_hit cm env now s2 vm entry hmem hfresh
    have hnext : (get_attestation cm env now s2 vm).2.cache =
        [(vm, entry)] := by
      rw [hcac, hcache]; simp [adel]
    obtain ⟨ha, hb, hc2⟩ := ih (get_attestation cm env now s2 vm).2 hnext
    rw [iterate_calls]
    refine ⟨ha, ?_, ?_⟩
    · rw [hb, hhit]; omega
    · rw [hc2, hmis]

/-- C5: a `get_attestation` call that finds a cache entry younger than
the TTL returns that entry's data, increments the hit counter (not the
miss counter) and promotes the entry to the most-recently-used (last)
cache position; consequently, starting from an empty cache and zero
counters, a first successful call followed by repeats at the same
instant yields the identical data on the second call and a hit rate of
(N-1)/N after N calls. -/
theorem c5_cache_idempotence (cm : ConfigManager) (env : Env) (now : Nat)
    (s : HubState) (vm : List Char) (d : AttestationData) (N : Nat)
    (hc : s.cache = []) (hh : s.cache_hits = 0) (hm : s.cache_misses = 0)
    (hmax : 1 ≤ cm.cache_config.max_size)
    (h1 : (get_attestation cm env now s vm).1 = .ok d)
    (hN : 1 ≤ N) :
    (∀ s2 entry, alookup vm s2.cache = some entry →
      entry.is_expired now cm.cache_config.ttl = false →
      (get_attestation cm env now s2 vm).1 = .ok entry.data ∧
      (get_attestation cm env now s2 vm).2.cache =
        adel vm s2.cache ++ [(vm, entry)] ∧
      (get_attestation cm env now s2 vm).2.cache_hits = s2.cache_hits + 1 ∧
      (get_attestation cm env now s2 vm).2.cache_misses = s2.cache_misses) ∧
    (get_attestation cm env now (get_attestation cm env now s vm).2 vm).1 =
      .ok d ∧
    (iterate_calls cm env now vm N s).cache_hits = N - 1 ∧
    (iterate_calls cm env now vm N s).cache_misses = 1 ∧
    get_cache_hit_rate (iterate_calls cm env now vm N s) =
      ((N - 1 : Nat) : ℚ) / (N : ℚ) := by
  have hmiss : (get_cached_attestation cm s vm now).1 = none := by
    simp [get_cached_attestation, hc, alookup]
  obtain ⟨hcache1, hhits1, hmiss1⟩ :=
    get_attestation_miss_ok cm env now s vm d hmiss h1
  have hccache : (get_cached_attestation cm s vm now).2.cache = [] := by
    simp [get_cached_attestation, hc, alookup]
  have hs1cache : (get_attestation cm env now s vm).2.cache =
      [(vm, { data := d, created_at := now })] := by
    rw [hcache1, hccache]
    simp [evictIfFull, odset, alookup]
  have hfresh : ({ data := d, created_at := now } : CacheEntry).is_expired
      now cm.cache_config.ttl = false := by
    simp [CacheEntry.is_expired]
  refine ⟨?_, ?_, ?_, ?_, ?_⟩
  · intro s2 entry hmem2 hfresh2
    obtain ⟨hv, hcac, hhit, hmis, _⟩ :=
      get_attestation_hit cm env now s2 vm entry hmem2 hfresh2
    exact ⟨hv, hcac, hhit, hmis⟩
  · have hmem1 : alookup vm (get_attestation cm env now s vm).2.cache =
        some { data := d, created_at := now } := by
      rw [hs1cache]; simp [alookup]
    exact (get_attestation_hit cm env now _ vm _ hmem1 hfresh).1
  · obtain ⟨k, hk⟩ : ∃ k, N = k + 1 := ⟨N - 1, by omega⟩
    subst hk
    rw [iterate_calls]
    obtain ⟨_, hb, _⟩ := iterate_calls_steady cm env now vm _ k hfresh
      (get_attestation cm env now s vm).2 hs1cache
    rw [hb, hhits1, hh]
    omega
  · obtain ⟨k, hk⟩ : ∃ k, N = k + 1 := ⟨N - 1, by omega⟩
    subst hk
    rw [iterate_calls]
    obtain ⟨_, _, hc2⟩ := iterate_calls_steady cm env now vm _ k hfresh
      (get_attestation cm env now s vm).2 hs1cache
    rw [hc2, hmiss1, hm]
  · obtain ⟨k, hk⟩ : ∃ k, N = k + 1 := ⟨N - 1, by omega⟩
    subst hk
    rw [iterate_calls]
    obtain ⟨_, hb, hc2⟩ := iterate_calls_steady cm env now vm _ k hfresh
      (get_attestation cm env now s vm).2 hs1cache
    have hhits : (iterate_calls cm env now vm k
        (get_attestation cm env now s vm).2).cache_hits = k := by
      rw [hb, hhits1, hh]; omega
    have hmisses : (iterate_calls cm env now vm k
        (get_attestation cm env now s vm).2).cache_misses = 1 := by
      rw [hc2, hmiss1, hm]
    rw [get_cache_hit_rate, hhits, hmisses]
    have hne : k + 1 ≠ 0 := by omega
    simp only [hne, if_false]
    push_cast
    norm_num

/-- C5, witness: three repeated calls at one instant against a
configuration whose parse succeeds give two hits, one miss, and a 2/3
hit rate. -/
theorem c5_cache_idempotence_witness :
    (∀ s2 entry, alookup "secretgpt".toList s2.cache = some entry →
      entry.is_expired 0 cmW.cache_config.ttl = false →
      (get_attestation cmW envOk 0 s2 "secretgpt".toList).1 =
        .ok entry.data ∧
      (get_attestation cmW envOk 0 s2 "secretgpt".toList).2.cache =
        adel "secretgpt".toList s2.cache ++ [("secretgpt".toList, entry)] ∧
      (get_attestation cmW envOk 0 s2 "secretgpt".toList).2.cache_hits =
        s2.cache_hits + 1 ∧
      (get_attestation cmW envOk 0 s2 "secretgpt".toList).2.cache_misses =
        s2.cache_misses) ∧
    (get_attestation cmW envOk 0
      (get_attestation cmW envOk 0 stW "secretgpt".toList).2
      "secretgpt".toList).1 = .ok attW ∧
    (iterate_calls cmW envOk 0 "secretgpt".toList 3 stW).cache_hits = 3 - 1 ∧
    (iterate_calls cmW envOk 0 "secretgpt".toList 3 stW).cache_misses = 1 ∧
    get_cache_hit_rate (iterate_calls cmW envOk 0 "secretgpt".toList 3 stW) =
      ((3 - 1 : Nat) : ℚ) / (3 : ℚ) :=
  c5_cache_idempotence cmW envOk 0 stW "secretgpt".toList attW 3
    rfl rfl rfl (by decide) rfl (by decide)

/-! ## Lemmas about quote validation and field extraction -/

theorem validate_quote_eq_false_iff (q : List Char) :
    validate_quote q = false ↔
      (q = [] ∨ pyIntHexOk q = false ∨ q.length < 2000) := by
  unfold validate_quote
  split_ifs with h1 h2 h3
  · simp [h1]
  · simp [h2]
  · simp [h3]
  · simp [h1, h2, h3]

theorem validate_quote_length (q : List Char)
    (h : validate_quote q = true) : 2000 ≤ q.length := by
  unfold validate_quote at h
  split_ifs at h with h1 h2 h3 <;> first | omega | simp at h

theorem extract_field_eq (q : List Char) (f : String) (st sp : Nat)
    (hoff : HardcodedParser.OFFSETS f = some (st, sp))
    (hlen : sp ≤ q.length) :
    HardcodedParser.extract_field q f = (q.drop st).take (sp - st) := by
  unfold HardcodedParser.extract_field
  rw [hoff]
  show (if q.length < sp then [] else (q.drop st).take (sp - st))
    = (q.drop st).take (sp - st)
  rw [if_neg (by omega)]

theorem length_slice (q : List Char) (st k : Nat) (h : st + k ≤ q.length) :
    ((q.drop st).take k).length = k := by
  simp only [List.length_take, List.length_drop]
  omega

theorem slice_ne_nil (q : List Char) (st k : Nat) (hk : 0 < k)
    (h : st + k ≤ q.length) : (q.drop st).take k ≠ [] := by
  intro hcon
  have := length_slice q st k h
  rw [hcon] at this
  simp at this
  omega

theorem all_slice (q : List Char) (p : Char → Bool) (hall : q.all p = true)
    (st k : Nat) : ((q.drop st).take k).all p = true := by
  rw [List.all_eq_true] at hall ⊢
  intro x hx
  exact hall x
    (((List.take_sublist _ _).trans (List.drop_sublist _ _)).subset hx)

/-- Inversion of a successful `HardcodedParser.parse_attestation`: the
quote passed validation and every field is the hex slice at its
hardcoded offset. -/
theorem hardcoded_parse_ok_fields (q : List Char) (cfg : VMConfig)
    (cert : List Char) (now : Nat) (a : AttestationData)
    (h : HardcodedParser.parse_attestation q cfg cert now = .ok a) :
    validate_quote q = true ∧
    a.mrtd = (q.drop 368).take 96 ∧
    a.rtmr0 = (q.drop 752).take 96 ∧
    a.rtmr1 = (q.drop 848).take 96 ∧
    a.rtmr2 = (q.drop 944).take 96 ∧
    a.rtmr3 = (q.drop 1040).take 96 ∧
    a.report_data = (q.drop 128).take 64 := by
  simp only [HardcodedParser.parse_attestation] at h
  by_cases hv : validate_quote q = true
  · have hlen := validate_quote_length q hv
    rw [if_neg (by simp [hv])] at h
    rw [extract_field_eq q "report_data" 128 192 rfl (by omega),
        extract_field_eq q "mrtd" 368 464 rfl (by omega),
        extract_field_eq q "rtmr0" 752 848 rfl (by omega),
        extract_field_eq q "rtmr1" 848 944 rfl (by omega),
        extract_field_eq q "rtmr2" 944 1040 rfl (by omega),
        extract_field_eq q "rtmr3" 1040 1136 rfl (by omega)] at h
    have hne : ¬((q.drop 368).take (464 - 368) = [] ∨
        (q.drop 752).take (848 - 752) = [] ∨
        (q.drop 848).take (944 - 848) = [] ∨
        (q.drop 944).take (1040 - 944) = [] ∨
        (q.drop 1040).take (1136 - 1040) = []) := by
      push_neg
      exact ⟨slice_ne_nil q 368 96 (by omega) (by omega),
        slice_ne_nil q 752 96 (by omega) (by omega),
        slice_ne_nil q 848 96 (by omega) (by omega),
        slice_ne_nil q 944 96 (by omega) (by omega),
        slice_ne_nil q 1040 96 (by omega) (by omega)⟩
    rw [if_neg hne] at h
    rcases hvn : HardcodedParser.vm_name_from_endpoint cfg.endpoint
        with _ | name
    · rw [hvn] at h
      exact absurd h (by simp)
    · rw [hvn] at h
      obtain rfl := Except.ok.inj h
      exact ⟨hv, rfl, rfl, rfl, rfl, rfl, rfl⟩
  · rw [if_pos (by simpa using hv)] at h
    exact absurd h (by simp)

theorem validate_quote_eq_true (q : List Char) (h1 : q ≠ [])
    (h2 : pyIntHexOk q = true) (h3 : ¬ q.length < 2000) :
    validate_quote q = true := by
  unfold validate_quote
  rw [if_neg h1, h2]
  simp only [Bool.true_eq_false, if_false]
  rw [if_neg h3]

/-- Forward evaluation of a successful `HardcodedParser` parse. -/
theorem hardcoded_parse_ok_of (q : List Char) (cfg : VMConfig)
    (cert : List Char) (now : Nat) (name : List Char)
    (hv : validate_quote q = true)
    (hname : HardcodedParser.vm_name_from_endpoint cfg.endpoint
      = some name) :
    HardcodedParser.parse_attestation q cfg cert now =
      .ok { vm_name := name
            vm_type := cfg.type
            mrtd := (q.drop 368).take 96
            rtmr0 := (q.drop 752).take 96
            rtmr1 := (q.drop 848).take 96
            rtmr2 := (q.drop 944).take 96
            rtmr3 := (q.drop 1040).take 96
            report_data := (q.drop 128).take 64
            certificate_fingerprint := cert
            timestamp := now
            raw_quote := q
            parsing_method := "hardcoded".toList } := by
  have hlen := validate_quote_length q hv
  simp only [HardcodedParser.parse_attestation]
  rw [if_neg (by simp [hv])]
  rw [extract_field_eq q "report_data" 128 192 rfl (by omega),
      extract_field_eq q "mrtd" 368 464 rfl (by omega),
      extract_field_eq q "rtmr0" 752 848 rfl (by omega),
      extract_field_eq q "rtmr1" 848 944 rfl (by omega),
      extract_field_eq q "rtmr2" 944 1040 rfl (by omega),
      extract_field_eq q "rtmr3" 1040 1136 rfl (by omega)]
  have hne : ¬((q.drop 368).take (464 - 368) = [] ∨
      (q.drop 752).take (848 - 752) = [] ∨
      (q.drop 848).take (944 - 848) = [] ∨
      (q.drop 944).take (1040 - 944) = [] ∨
      (q.drop 1040).take (1136 - 1040) = []) := by
    push_neg
    exact ⟨slice_ne_nil q 368 96 (by omega) (by omega),
      slice_ne_nil q 752 96 (by omega) (by omega),
      slice_ne_nil q 848 96 (by omega) (by omega),
      slice_ne_nil q 944 96 (by omega) (by omega),
      slice_ne_nil q 1040 96 (by omega) (by omega)⟩
  rw [if_neg hne, hname]

/-! ## C7 — quote validation gates hardcoded extraction -/

/-- C7, counterexample: `'0' :: 'x' :: 1998 hex digits` is not a string
of hex characters, is non-empty and is 2000 characters long; yet
`HardcodedParser.parse_attestation` does not raise on it (Python's
`int(quote, 16)` accepts the `0x` marker), contradicting the claim that
every non-hex quote raises `ParsingError`. -/
theorem c7_counterexample :
    quotePfx.all isHexDigitChar = false ∧
    quotePfx ≠ [] ∧
    quotePfx.length = 2000 ∧
    (HardcodedParser.parse_attestation quotePfx cfgW [] 0).toOption.isSome
      = true := by
  have hlen : quotePfx.length = 2000 := by
    simp [quotePfx]
  have hv : validate_quote quotePfx = true :=
    validate_quote_eq_true _ (by decide) (by decide) (by rw [hlen]; omega)
  have hp := hardcoded_parse_ok_of quotePfx cfgW [] 0 "secretgpt".toList
    hv (by decide)
  refine ⟨by decide, by decide, hlen, ?_⟩
  rw [hp]
  rfl

/-- C7 (amended): `HardcodedParser.parse_attestation` raises
`ParsingError("Invalid quote format")` exactly when the quote is empty,
rejected by Python's `int(quote, 16)` (which also accepts surrounding
whitespace, an optional sign, a `0x`/`0X` marker and single underscores
between digits), or shorter than 2000 characters; offset extraction is
performed only on quotes passing all three checks. -/
theorem c7_validate_gate (q : List Char) (cfg : VMConfig)
    (cert : List Char) (now : Nat) :
    ((q = [] ∨ pyIntHexOk q = false ∨ q.length < 2000) →
      HardcodedParser.parse_attestation q cfg cert now =
        .error (.parsingError "Invalid quote format".toList)) ∧
    (∀ a, HardcodedParser.parse_attestation q cfg cert now = .ok a →
      validate_quote q = true) ∧
    (validate_quote q = false ↔
      (q = [] ∨ pyIntHexOk q = false ∨ q.length < 2000)) := by
  refine ⟨fun hbad => ?_, fun a ha => (hardcoded_parse_ok_fields
    q cfg cert now a ha).1, validate_quote_eq_false_iff q⟩
  have hvf : validate_quote q = false :=
    (validate_quote_eq_false_iff q).mpr hbad
  simp only [HardcodedParser.parse_attestation]
  rw [if_pos (by simp [hvf])]

/-- C7, witness: the empty quote raises `ParsingError`. -/
theorem c7_validate_gate_witness :
    HardcodedParser.parse_attestation [] cfgW [] 0 =
      .error (.parsingError "Invalid quote format".toList) :=
  (c7_validate_gate [] cfgW [] 0).1 (Or.inl rfl)

/-! ## C6 — field-length invariant -/

/-- C6, counterexample: a successful `rest_server` parse of a `/cpu`
JSON response that lacks the `mrtd` key yields an `AttestationData`
whose `mrtd` is empty (0 characters, not 96): `_parse_json_response`
never validates field lengths. -/
theorem c6_counterexample :
    (RestServerParser.parse_attestation renvEmptyJson quoteAll cfgW
      [] 0).toOption.map (fun a => a.mrtd.length) = some 0 ∧
    (0 : Nat) ≠ 96 := by
  have hlen : quoteAll.length = 2000 := by
    simp [quoteAll]
  have hv : validate_quote quoteAll = true :=
    validate_quote_eq_true _ (by decide) (by decide) (by rw [hlen]; omega)
  refine ⟨?_, by decide⟩
  simp only [RestServerParser.parse_attestation]
  rw [if_neg (by simp [hv])]
  rfl

/-- C6 (amended): every `AttestationData` produced by a successful
`HardcodedParser` parse has mrtd and rtmr0–rtmr3 of exactly 96
characters and report_data of exactly 64 characters, and when the quote
consists of hex digits the extracted fields are hex; the `rest_server`
strategy's JSON path carries no such guarantee. -/
theorem c6_hardcoded_field_lengths (q : List Char) (cfg : VMConfig)
    (cert : List Char) (now : Nat) (a : AttestationData)
    (h : HardcodedParser.parse_attestation q cfg cert now = .ok a) :
    a.mrtd.length = 96 ∧ a.rtmr0.length = 96 ∧ a.rtmr1.length = 96 ∧
    a.rtmr2.length = 96 ∧ a.rtmr3.length = 96 ∧
    a.report_data.length = 64 ∧
    (q.all isHexDigitChar = true →
      a.mrtd.all isHexDigitChar = true ∧
      a.rtmr0.all isHexDigitChar = true ∧
      a.rtmr1.all isHexDigitChar = true ∧
      a.rtmr2.all isHexDigitChar = true ∧
      a.rtmr3.all isHexDigitChar = true ∧
      a.report_data.all isHexDigitChar = true) := by
  obtain ⟨hv, h1, h2, h3, h4, h5, h6⟩ :=
    hardcoded_parse_ok_fields q cfg cert now a h
  have hlen := validate_quote_length q hv
  refine ⟨?_, ?_, ?_, ?_, ?_, ?_,
    fun hall => ⟨?_, ?_, ?_, ?_, ?_, ?_⟩⟩
  · rw [h1]; exact length_slice q 368 96 (by omega)
  · rw [h2]; exact length_slice q 752 96 (by omega)
  · rw [h3]; exact length_slice q 848 96 (by omega)
  · rw [h4]; exact length_slice q 944 96 (by omega)
  · rw [h5]; exact length_slice q 1040 96 (by omega)
  · rw [h6]; exact length_slice q 128 64 (by omega)
  · rw [h1]; exact all_slice q _ hall 368 96
  · rw [h2]; exact all_slice q _ hall 752 96
  · rw [h3]; exact all_slice q _ hall 848 96
  · rw [h4]; exact all_slice q _ hall 944 96
  · rw [h5]; exact all_slice q _ hall 1040 96
  · rw [h6]; exact all_slice q _ hall 128 64

/-- C6, witness: the 2000-character all-hex quote parses to fields of
the stated lengths. -/
theorem c6_hardcoded_field_lengths_witness :
    attAll.mrtd.length = 96 ∧ attAll.rtmr0.length = 96 ∧
    attAll.rtmr1.length = 96 ∧ attAll.rtmr2.length = 96 ∧
    attAll.rtmr3.length = 96 ∧ attAll.report_data.length = 64 ∧
    (quoteAll.all isHexDigitChar = true →
      attAll.mrtd.all isHexDigitChar = true ∧
      attAll.rtmr0.all isHexDigitChar = true ∧
      attAll.rtmr1.all isHexDigitChar = true ∧
      attAll.rtmr2.all isHexDigitChar = true ∧
      attAll.rtmr3.all isHexDigitChar = true ∧
      attAll.report_data.all isHexDigitChar = true) :=
  c6_hardcoded_field_lengths quoteAll cfgW [] 0 attAll (by
    have hlen : quoteAll.length = 2000 := by simp [quoteAll]
    have hv : validate_quote quoteAll = true :=
      validate_quote_eq_true _ (by decide) (by decide) (by rw [hlen]; omega)
    rw [hardcoded_parse_ok_of quoteAll cfgW [] 0 "secretgpt".toList hv
      (by decide)]
    simp [attAll, cfgW, quoteAll, List.drop_replicate,
      List.take_replicate])

end SecretGPT
